import Mathlib

/-!
Verification of the Blockly-to-Elixir music code generator of the
blockytalky repository.

The per-block-kind generator functions are translated from
`web/static/vendor/elixir/music.js`.  The generic generator core
(`Blockly.Elixir.valueToCode`, `Blockly.Elixir.statementToCode`, the chain
walker and the top-level driver) is not part of the provided sources, so it
is modelled from the specification (sections 4.2, 4.3, 4.4, 4.5 and 7):
value-slot resolution with precedence-based parenthesization and
stack-based cycle detection, chain compilation following `next` links, and
a driver that resets a fresh generation context and prepends the hoisted
macro accumulator to the body.
-/

namespace BlocklyElixir

/-- Fatal compile errors, from the specification's error taxonomy (section 7).
`OutOfFuel` is the embedding's bound on recursion depth; with the fuel chosen
by the driver it is only reached on graphs whose statement chains are cyclic,
which the data model (section 3) excludes. -/
inductive Err where
  | UnknownKind
  | DanglingReference
  | CyclicValueInput
  | OutOfFuel
deriving DecidableEq, Repr

/-- The block kinds of `music.js`, plus the two literal value-block kinds
(`math_number` and `text`) that the music blocks' value inputs connect to. -/
inductive Kind where
  | defmotif
  | play_synth
  | trigger_drum
  | rest
  | wait_for
  | set_volume
  | set_tempo
  | stop_sound
  | cue
  | loop
  | sync_to_parent
  | chord
  | premade_chord
  | play_chord_progression
  | play_in_key
  | set_synth
  | with_fx
  | trigger_sample
  | math_number
  | text
deriving DecidableEq, Repr

/-- Modelled from the spec: a numeric field literal, kept symbolically as the
decimal the user typed — an integer, or a float with integer part and the
list of fractional digits — so that the rendering table of section 6
(integers without a trailing fractional point, floats always containing a
decimal point) is expressible. -/
inductive NumLit where
  | int (n : Int)
  | float (ip : Int) (frac : List Nat)
deriving DecidableEq, Repr

/-- A node of the block graph (section 3): kind tag, the user-chosen field
values (string-valued fields such as dropdowns and text fields, and numeric
fields), the bound value-input slots (slot name to child node id), the
statement-input slots (slot name to first node of the nested chain), and the
optional `next` node of the node's own statement chain. -/
structure Node where
  kind : Kind
  strFields : List (String × String) := []
  numFields : List (String × NumLit) := []
  valueIn : List (String × Nat) := []
  stmtIn : List (String × Nat) := []
  next : Option Nat := none
deriving DecidableEq, Repr

/-- A graph is a finite map from node id to node. -/
abbrev Graph := List (Nat × Node)

/-- Node lookup; an id absent from the graph is a dangling reference. -/
def lookupNode (g : Graph) (i : Nat) : Option Node :=
  g.lookup i

/-- `block.getFieldValue(name)` for string-valued fields. -/
def getField (b : Node) (name : String) : String :=
  (b.strFields.lookup name).getD ""

/-- `block.getFieldValue(name)` for numeric fields. -/
def getNumField (b : Node) (name : String) : NumLit :=
  (b.numFields.lookup name).getD (.int 0)

/-- The generation context (section 3): the current scope tag (null or a tag
such as ":music") and the hoisted-macro accumulator (`Blockly.Elixir.context`
and `Blockly.Elixir.macros_` in the source). -/
structure GenState where
  context : Option String
  hoisted : List String
deriving DecidableEq, Repr

/-- The fresh generation context a top-level compile starts from. -/
def freshState : GenState := { context := none, hoisted := [] }

/-- `Blockly.Elixir.ORDER_ATOMIC`: the tightest precedence tier. -/
def ORDER_ATOMIC : Nat := 0

/-- Decimal digit character. -/
def digitChar (d : Nat) : Char := Char.ofNat (48 + d)

/-- Decimal digits of a natural number, most significant first; the fuel is
structural and `n + 1` steps always suffice. -/
def natDecAux : Nat → Nat → List Char
  | 0, _ => []
  | fuel + 1, n =>
    if n < 10 then [digitChar n]
    else natDecAux fuel (n / 10) ++ [digitChar (n % 10)]

/-- Decimal rendering of a natural number. -/
def natDec (n : Nat) : List Char := natDecAux (n + 1) n

/-- Decimal rendering of an integer. -/
def intDec (n : Int) : List Char :=
  if n < 0 then '-' :: natDec n.natAbs else natDec n.toNat

/-- Modelled from the spec: the numeric part of the field literal rendering
table (section 6) — integers are rendered without a trailing fractional
point, floats always contain a decimal point. -/
def renderNum : NumLit → String
  | .int n => ⟨intDec n⟩
  | .float ip frac => (⟨intDec ip⟩ : String) ++ "." ++ (⟨frac.map digitChar⟩ : String)

/-- Modelled from the spec: string field literals are quoted, escaping quote
and backslash characters (section 6). -/
def escapeChar (c : Char) : List Char :=
  if c = '"' then ['\\', '"']
  else if c = '\\' then ['\\', '\\']
  else [c]

/-- Modelled from the spec: quoted rendering of a string literal. -/
def renderText (s : String) : String :=
  "\"" ++ (⟨s.data.flatMap escapeChar⟩ : String) ++ "\""

/-- JavaScript `String.replace(pat, repl)` with a string pattern: replace the
first occurrence of `pat` (the replacement strings used by the source,
"hard" and "soft", contain no `$` patterns), on character lists. -/
def replaceFirstL : List Char → List Char → List Char → List Char
  | [], _, _ => []
  | c :: rest, pat, repl =>
    if (c :: rest).take pat.length = pat then repl ++ (c :: rest).drop pat.length
    else c :: replaceFirstL rest pat repl

/-- JavaScript `String.replace(pat, repl)` with a string pattern: an empty
pattern matches at position 0. -/
def replaceFirst (s pat repl : String) : String :=
  if pat = "" then repl ++ s
  else ⟨replaceFirstL s.data pat.data repl.data⟩

/-- Modelled from the spec (section 4.2): resolve one value-input slot of
block `b`, parameterized by the recursive value generator `rec` (the
generator at the next lower fuel).  An unbound slot degrades to empty text at
the tightest tier; a bound slot whose child is already on the resolution
stack is a cyclic value input; otherwise the child's text is wrapped in
parentheses exactly when the child's tier is numerically greater (looser)
than the consumer's required tier. -/
def resolveWith (rec : List Nat → Node → Except Err (String × Nat))
    (g : Graph) (stack : List Nat) (b : Node) (slot : String) (tier : Nat) :
    Except Err (String × Nat) :=
  match b.valueIn.lookup slot with
  | none => .ok ("", ORDER_ATOMIC)
  | some cid =>
    if stack.contains cid then .error .CyclicValueInput
    else
      match lookupNode g cid with
      | none => .error .DanglingReference
      | some child =>
        match rec (cid :: stack) child with
        | .error e => .error e
        | .ok (t, childTier) =>
          if tier < childTier then .ok ("(" ++ t ++ ")", ORDER_ATOMIC)
          else .ok (t, childTier)

/-- Value generation for the value-producing kinds: the `chord` and
`premade_chord` generators are translated from `music.js` (their shared
`for (i = 1; i < 5; i++)` loop over slots `Note1`..`Note4`); the literal
kinds `math_number` and `text` are modelled from the spec's field literal
rendering table.  The fuel argument bounds value-input recursion depth;
each descent into a child strictly decreases it. -/
def genValueF : Nat → Graph → List Nat → Node → Except Err (String × Nat)
  | 0, _, _, _ => .error .OutOfFuel
  | fuel + 1, g, stack, b =>
    let resolve : String → Nat → Except Err (String × Nat) := fun slot tier =>
      resolveWith (fun s c => genValueF fuel g s c) g stack b slot tier
    match b.kind with
    | .math_number => .ok (renderNum (getNumField b "NUM"), ORDER_ATOMIC)
    | .text => .ok (renderText (getField b "TEXT"), ORDER_ATOMIC)
    | .chord | .premade_chord =>
      let step : Except Err String → Nat → Except Err String := fun acc i =>
        match acc with
        | .error e => .error e
        | .ok code =>
          match resolve ("Note" ++ Nat.repr i) ORDER_ATOMIC with
          | .error e => .error e
          | .ok (note, _) =>
            if note ≠ "" ∧ i > 1 then .ok (code ++ "," ++ note)
            else if note ≠ "" then .ok (code ++ note)
            else .ok code
      match [1, 2, 3, 4].foldl step (.ok "[") with
      | .error e => .error e
      | .ok code => .ok (code ++ "]", ORDER_ATOMIC)
    | _ => .error .UnknownKind

/-- Modelled from the spec (section 4.2): `Blockly.Elixir.valueToCode` —
resolve a value-input slot at the given fuel. -/
def resolveValue (g : Graph) (fuel : Nat) (stack : List Nat) (b : Node)
    (slot : String) (tier : Nat) : Except Err (String × Nat) :=
  resolveWith (fun s c => genValueF fuel g s c) g stack b slot tier

/-- Split a character list at newline characters. -/
def splitNl : List Char → List (List Char)
  | [] => [[]]
  | c :: rest =>
    if c = '\n' then [] :: splitNl rest
    else
      match splitNl rest with
      | [] => [[c]]
      | l :: ls => (c :: l) :: ls

/-- Join lines back with newline characters. -/
def joinNl : List (List Char) → List Char
  | [] => []
  | [l] => l
  | l :: ls => l ++ '\n' :: joinNl ls

/-- Indent one line (as characters) by two spaces unless it is empty. -/
def indentLine (l : List Char) : List Char :=
  if l = [] then l else ' ' :: ' ' :: l

/-- Modelled from the spec (section 4.3): nested statement inputs are
indented one level (two spaces) deeper than their container. -/
def indentLines (s : String) : String :=
  ⟨joinNl ((splitNl s.data).map indentLine)⟩

/-- The type of the `statementToCode` callback handed to each statement
generator: compile a nested statement chain, already indented one level. -/
abbrev StmtToCode := Option Nat → GenState → Except Err (String × GenState)

/-- `Blockly.Elixir['defmotif']` (music.js lines 26-34): set the context tag,
resolve `NAME` and the `DO` chain, build the definition text, clear the
context tag, push the text onto the macro accumulator, and return the same
text. -/
def defmotifGen (stmtToCode : StmtToCode) (g : Graph) (fuel : Nat) (b : Node)
    (st : GenState) : Except Err (String × GenState) :=
  let st1 : GenState := { st with context := some ":music" }
  match resolveValue g fuel [] b "NAME" ORDER_ATOMIC with
  | .error e => .error e
  | .ok (value_name, _) =>
    match stmtToCode (b.stmtIn.lookup "DO") st1 with
    | .error e => .error e
    | .ok (statements_do, st2) =>
      let code := "defmotif " ++ value_name ++ " do\n" ++ statements_do ++ "\nend\n"
      let st3 : GenState := { st2 with context := none }
      let st4 : GenState := { st3 with hoisted := st3.hoisted ++ [code] }
      .ok (code, st4)

/-- `Blockly.Elixir['play_synth']` (music.js lines 55-60). -/
def playSynthGen (g : Graph) (fuel : Nat) (b : Node) (st : GenState) :
    Except Err (String × GenState) :=
  match resolveValue g fuel [] b "NOTES" ORDER_ATOMIC with
  | .error e => .error e
  | .ok (value_notes, _) =>
    match resolveValue g fuel [] b "BEATS" ORDER_ATOMIC with
    | .error e => .error e
    | .ok (value_beats, _) =>
      .ok ("play_synth(" ++ value_notes ++ "," ++ value_beats ++ ")\n", st)

/-- `Blockly.Elixir['trigger_drum']` (music.js lines 75-81): the `SAMPLE`
dropdown value has its first occurrence of "soft" replaced by the `STYLE`
dropdown value. -/
def triggerDrumGen (b : Node) (st : GenState) : Except Err (String × GenState) :=
  let dropdown_sample := getField b "SAMPLE"
  let dropdown_style := getField b "STYLE"
  let sample2 := replaceFirst dropdown_sample "soft" dropdown_style
  .ok ("trigger_sample(" ++ sample2 ++ ")\n", st)

/-- `Blockly.Elixir['rest']` (music.js lines 97-102). -/
def restGen (g : Graph) (fuel : Nat) (b : Node) (st : GenState) :
    Except Err (String × GenState) :=
  match resolveValue g fuel [] b "AMOUNT" ORDER_ATOMIC with
  | .error e => .error e
  | .ok (value_amount, _) =>
    .ok ("rest(" ++ value_amount ++ "," ++ getField b "UNITS" ++ ")\n", st)

/-- `Blockly.Elixir['play_chord_progression']` (music.js lines 302-309):
sets and clears the context tag; its own text is just the nested chain. -/
def playChordProgressionGen (stmtToCode : StmtToCode) (g : Graph) (fuel : Nat)
    (b : Node) (st : GenState) : Except Err (String × GenState) :=
  let st1 : GenState := { st with context := some ":music" }
  match resolveValue g fuel [] b "NAME" ORDER_ATOMIC with
  | .error e => .error e
  | .ok _ =>
    match stmtToCode (b.stmtIn.lookup "DO") st1 with
    | .error e => .error e
    | .ok (statements_do, st2) =>
      .ok (statements_do, { st2 with context := none })

/-- `Blockly.Elixir['play_in_key']` (music.js lines 328-338): sets the
context tag, compiles the nested `DO` chain, emits the keyed block, and
clears the context tag. -/
def playInKeyGen (stmtToCode : StmtToCode) (b : Node) (st : GenState) :
    Except Err (String × GenState) :=
  let st1 : GenState := { st with context := some ":music" }
  let key := getField b "KEY"
  let mode := getField b "MODE"
  match stmtToCode (b.stmtIn.lookup "DO") st1 with
  | .error e => .error e
  | .ok (statements_do, st2) =>
    let code := "play_in_key(\"" ++ key ++ "\",\"" ++ mode ++ "\")" ++ " do\n"
      ++ statements_do ++ "\nend\n"
    .ok (code, { st2 with context := none })

/-- `Blockly.Elixir['with_fx']` (music.js lines 388-393). -/
def withFxGen (stmtToCode : StmtToCode) (b : Node) (st : GenState) :
    Except Err (String × GenState) :=
  let dropdown_effect := getField b "EFFECT"
  match stmtToCode (b.stmtIn.lookup "COMMANDS") st with
  | .error e => .error e
  | .ok (statements_commands, st2) =>
    .ok ("with_fx(" ++ dropdown_effect ++ ")\ndo\n" ++ statements_commands
      ++ "\nend\n", st2)

/-- `Blockly.Elixir['trigger_sample']` (music.js lines 409-414): sets and
immediately clears the context tag, then emits its line. -/
def triggerSampleGen (b : Node) (st : GenState) : Except Err (String × GenState) :=
  let st1 : GenState := { st with context := some ":music" }
  let st2 : GenState := { st1 with context := none }
  .ok ("trigger_sample(\"" ++ getField b "NAME" ++ "\")\n", st2)

/-- The per-statement-kind generator dispatch, translated from `music.js`
(the registration table `Blockly.Elixir[kind]`), parameterized by `chain` —
the chain compiler at the next lower fuel — from which the
`statementToCode` callback (nested chain, indented one level) is built.
The value-input resolutions use the value side at fuel `fuel`. -/
def genStmtWith (chain : Option Nat → GenState → Except Err (String × GenState))
    (g : Graph) (fuel : Nat) (b : Node) (st : GenState) :
    Except Err (String × GenState) :=
  let stmtToCode : StmtToCode := fun nid s =>
    match chain nid s with
    | .error e => .error e
    | .ok (t, s') => .ok (indentLines t, s')
  match b.kind with
  | .defmotif => defmotifGen stmtToCode g fuel b st
  | .play_synth => playSynthGen g fuel b st
  | .trigger_drum => triggerDrumGen b st
  | .rest => restGen g fuel b st
  | .wait_for => .ok ("wait_for(" ++ getField b "UNITS" ++ ")\n", st)
  | .set_volume =>
    match resolveValue g fuel [] b "VOLUME" ORDER_ATOMIC with
    | .error e => .error e
    | .ok (value_volume, _) => .ok ("set_volume(" ++ value_volume ++ ")\n", st)
  | .set_tempo =>
    match resolveValue g fuel [] b "TEMPO" ORDER_ATOMIC with
    | .error e => .error e
    | .ok (value_tempo, _) => .ok ("set_tempo(" ++ value_tempo ++ ")\n", st)
  | .stop_sound => .ok ("stop_sound()\n", st)
  | .cue =>
    match resolveValue g fuel [] b "MOTIF" ORDER_ATOMIC with
    | .error e => .error e
    | .ok (value_motif, _) => .ok ("cue(" ++ value_motif ++ ")\n", st)
  | .loop =>
    match resolveValue g fuel [] b "MOTIF" ORDER_ATOMIC with
    | .error e => .error e
    | .ok (value_motif, _) => .ok ("loop(" ++ value_motif ++ ")\n", st)
  | .sync_to_parent =>
    match resolveValue g fuel [] b "PARENT" ORDER_ATOMIC with
    | .error e => .error e
    | .ok (value_parent, _) => .ok ("sync_to(" ++ value_parent ++ ")\n", st)
  | .play_chord_progression => playChordProgressionGen stmtToCode g fuel b st
  | .play_in_key => playInKeyGen stmtToCode b st
  | .set_synth => .ok ("set_synth(" ++ getField b "SYNTH" ++ ")\n", st)
  | .with_fx => withFxGen stmtToCode b st
  | .trigger_sample => triggerSampleGen b st
  | _ => .error .UnknownKind

/-- Modelled from the spec (section 4.3): the statement chain compiler —
starting at a node id, generate each node's text and append it, following
`next` references until null; each generator's returned text already carries
its trailing newline.  A `next` or slot id absent from the graph is a
dangling reference. -/
def chainF : Nat → Graph → Option Nat → GenState → Except Err (String × GenState)
  | _, _, none, st => .ok ("", st)
  | 0, _, some _, _ => .error .OutOfFuel
  | fuel + 1, g, some i, st =>
    match lookupNode g i with
    | none => .error .DanglingReference
    | some b =>
      match genStmtWith (fun nid s => chainF fuel g nid s) g fuel b st with
      | .error e => .error e
      | .ok (t, st') =>
        match chainF fuel g b.next st' with
        | .error e => .error e
        | .ok (rest, st'') => .ok (t ++ rest, st'')

/-- One statement node's generator at the given fuel. -/
def genStmt (g : Graph) (fuel : Nat) (b : Node) (st : GenState) :
    Except Err (String × GenState) :=
  genStmtWith (fun nid s => chainF fuel g nid s) g fuel b st

/-- Modelled from the spec: `Blockly.Elixir.statementToCode` — compile a
nested chain and indent it one level. -/
def statementToCode (g : Graph) (fuel : Nat) (nid : Option Nat) (st : GenState) :
    Except Err (String × GenState) :=
  match chainF fuel g nid st with
  | .error e => .error e
  | .ok (t, st') => .ok (indentLines t, st')

/-- Modelled from the spec (section 4.4 final assembly): the hoisted macro
entries, in first-visited order, precede the main body, separated by a blank
line; with no hoisted macros the output is the body alone (no macro
section). -/
def assemble (hoisted : List String) (body : String) : String :=
  if hoisted = [] then body else String.join hoisted ++ "\n" ++ body

/-- Fuel sufficient for any acyclic graph: statement traversal visits each
node at most once per chain position and value resolution is bounded by the
cycle stack. -/
def fuelOf (g : Graph) : Nat := 2 * g.length + 2

/-- Modelled from the spec (section 4.5): the top-level driver, given the
ambient generation context left over from any earlier run — it resets a
fresh generation context (discarding the ambient state), compiles the root
chain, and prepends the hoisted macro text to the body. -/
def compileFrom (_amb : GenState) (g : Graph) (root : Nat) : Except Err String :=
  let fresh : GenState := { context := none, hoisted := [] }
  match chainF (fuelOf g) g (some root) fresh with
  | .error e => .error e
  | .ok (body, st) => .ok (assemble st.hoisted body)

/-- Modelled from the spec (section 4.5): `compile(rootNodeId)`. -/
def compile (g : Graph) (root : Nat) : Except Err String :=
  compileFrom freshState g root

/-- The text contributed for the i-th `Note` slot of a `chord` block given
its resolved text: a comma precedes the note exactly when the note text is
non-empty and `i > 1`, irrespective of whether any earlier note was
emitted. -/
def noteSeg (i : Nat) (t : String) : String :=
  if t ≠ "" ∧ i > 1 then "," ++ t else if t ≠ "" then t else ""

/-- A `trigger_drum` node with the given `SAMPLE` and `STYLE` dropdown
values. -/
def mkTriggerDrum (sample style : String) : Node :=
  { kind := .trigger_drum, strFields := [("SAMPLE", sample), ("STYLE", style)] }

/-- The `defmotif` node of the hoisting example graph: motif named by text
node 2, empty `DO` chain, followed in its statement chain by node 4. -/
def nDefmotifC1 : Node := { kind := .defmotif, valueIn := [("NAME", 2)], next := some 4 }

/-- Hoisting example graph: a root chain `defmotif "intro" → stop_sound`. -/
def gC1 : Graph :=
  [ (1, nDefmotifC1),
    (2, { kind := .text, strFields := [("TEXT", "intro")] }),
    (4, { kind := .stop_sound }) ]

/-- The scenario graph of the spec (section 8): the chain
`set_tempo(120) → play_synth(["C4","E4"], 2) → stop_sound()`, the note list
built by a `chord` block holding the text literals "C4" and "E4". -/
def gC2 : Graph :=
  [ (1, { kind := .set_tempo, valueIn := [("TEMPO", 10)], next := some 2 }),
    (2, { kind := .play_synth, valueIn := [("NOTES", 20), ("BEATS", 21)], next := some 3 }),
    (3, { kind := .stop_sound }),
    (10, { kind := .math_number, numFields := [("NUM", .int 120)] }),
    (20, { kind := .chord, valueIn := [("Note1", 22), ("Note2", 23)] }),
    (21, { kind := .math_number, numFields := [("NUM", .int 2)] }),
    (22, { kind := .text, strFields := [("TEXT", "C4")] }),
    (23, { kind := .text, strFields := [("TEXT", "E4")] }) ]

/-- A `play_synth` node whose required `NOTES` slot is unbound and whose
`BEATS` slot is bound to node 2. -/
def nPlaySynthC3 : Node := { kind := .play_synth, valueIn := [("BEATS", 2)] }

/-- Incomplete-graph example: `play_synth` with unbound `NOTES`. -/
def gC3 : Graph :=
  [ (1, nPlaySynthC3),
    (2, { kind := .math_number, numFields := [("NUM", .int 2)] }) ]

/-- The outer scope-defining node of the nesting example: a `play_in_key`
block whose `DO` chain starts at the inner `defmotif` node 2. -/
def nPlayInKeyC4 : Node :=
  { kind := .play_in_key, strFields := [("KEY", "C"), ("MODE", "Major")],
    stmtIn := [("DO", 2)] }

/-- Nesting example graph: a `defmotif` node nested inside a `play_in_key`
node's `DO` chain. -/
def gC4 : Graph :=
  [ (1, nPlayInKeyC4),
    (2, { kind := .defmotif, valueIn := [("NAME", 3)] }),
    (3, { kind := .text, strFields := [("TEXT", "m")] }) ]

/-- A `set_tempo` node whose `TEMPO` slot is bound to node 21. -/
def nC6 : Node := { kind := .set_tempo, valueIn := [("TEMPO", 21)] }

/-- The literal child of `nC6`. -/
def nNumC6 : Node := { kind := .math_number, numFields := [("NUM", .int 2)] }

/-- Precedence example graph. -/
def gC6 : Graph := [(1, nC6), (21, nNumC6)]

/-- The self-referential `chord` node: its `Note1` slot is bound to itself
(node id 2). -/
def nChordC7 : Node := { kind := .chord, valueIn := [("Note1", 2)] }

/-- Cyclic example graph: `play_synth` whose `NOTES` slot is bound to the
self-referential chord node 2. -/
def gC7 : Graph :=
  [ (1, { kind := .play_synth, valueIn := [("NOTES", 2)] }),
    (2, nChordC7) ]

/-- A graph whose value-input edges contain a mutually-referential cycle
(nodes 5 and 6) that is not reachable from the compiled root chain
(the single node 1). -/
def gC7b : Graph :=
  [ (1, { kind := .stop_sound }),
    (5, { kind := .chord, valueIn := [("Note1", 6)] }),
    (6, { kind := .chord, valueIn := [("Note1", 5)] }) ]

/-- A `chord` node whose `Note1` slot is unbound while `Note2` is bound to
text node 31. -/
def nChordC9 : Node := { kind := .chord, valueIn := [("Note2", 31)] }

/-- Leading-comma example graph. -/
def gC9 : Graph :=
  [ (30, nChordC9),
    (31, { kind := .text, strFields := [("TEXT", "E4")] }) ]

/-- A decimal digit character is never the decimal point. -/
theorem digitChar_ne_dot (d : Nat) (hd : d < 10) : digitChar d ≠ '.' := by
  interval_cases d <;> decide

/-- No decimal point ever occurs among the rendered digits of a natural
number. -/
theorem dot_not_mem_natDecAux (fuel : Nat) : ∀ n, '.' ∉ natDecAux fuel n := by
  induction fuel with
  | zero => intro n; simp [natDecAux]
  | succ f ih =>
    intro n
    by_cases h : n < 10
    · simp only [natDecAux, if_pos h, List.mem_singleton]
      exact fun hm => digitChar_ne_dot n h hm.symm
    · simp only [natDecAux, if_neg h, List.mem_append, List.mem_singleton]
      rintro (hm | hm)
      · exact ih _ hm
      · exact digitChar_ne_dot _ (Nat.mod_lt _ (by norm_num)) hm.symm

/-- C8: numeric field literals render with integers carrying no decimal
point and floats always carrying one; in particular the literal 2.0 renders
as "2.0", not "2". -/
theorem numeric_literal_rendering :
    renderNum (.float 2 [0]) = "2.0" ∧
    renderNum (.float 2 [0]) ≠ "2" ∧
    (∀ n : Int, '.' ∉ (renderNum (.int n)).data) ∧
    (∀ (ip : Int) (frac : List Nat), '.' ∈ (renderNum (.float ip frac)).data) := by
  refine ⟨rfl, by decide, ?_, ?_⟩
  · intro n
    show '.' ∉ intDec n
    unfold intDec
    split
    · intro hm
      rcases List.mem_cons.mp hm with h | h
      · exact absurd h (by decide)
      · exact dot_not_mem_natDecAux _ _ h
    · exact dot_not_mem_natDecAux _ _
  · intro ip frac
    show '.' ∈ (intDec ip ++ ['.']) ++ frac.map digitChar
    simp

/-- C2: the chain set_tempo(120) → play_synth(["C4","E4"], 2) → stop_sound()
compiles to exactly those three newline-terminated lines in chain order, and
the macro accumulator stays empty, so no macro section is emitted. -/
theorem scenario_chain_three_lines :
    compile gC2 1 = .ok "set_tempo(120)\nplay_synth([\"C4\",\"E4\"],2)\nstop_sound()\n" ∧
    chainF (fuelOf gC2) gC2 (some 1) freshState =
      .ok ("set_tempo(120)\nplay_synth([\"C4\",\"E4\"],2)\nstop_sound()\n",
        { context := none, hoisted := [] }) :=
  ⟨rfl, rfl⟩

/-- C3: an unbound value-input slot with no declared default resolves to
empty text at the tightest tier without raising any error, and the whole
compile of a play_synth node with unbound NOTES succeeds, emitting
"play_synth(,2)". -/
theorem unbound_slot_degrades_to_empty :
    (∀ (g : Graph) (fuel : Nat) (stack : List Nat) (b : Node) (slot : String)
        (tier : Nat),
        b.valueIn.lookup slot = none →
        resolveValue g fuel stack b slot tier = .ok ("", ORDER_ATOMIC)) ∧
    compile gC3 1 = .ok "play_synth(,2)\n" := by
  refine ⟨?_, rfl⟩
  intro g fuel stack b slot tier h
  simp [resolveValue, resolveWith, h]

/-- Witness for C3 at the concrete incomplete graph. -/
theorem unbound_slot_degrades_to_empty_witness :
    resolveValue gC3 5 [] nPlaySynthC3 "NOTES" ORDER_ATOMIC = .ok ("", ORDER_ATOMIC) ∧
    compile gC3 1 = .ok "play_synth(,2)\n" :=
  ⟨unbound_slot_degrades_to_empty.1 gC3 5 [] nPlaySynthC3 "NOTES" ORDER_ATOMIC rfl,
   unbound_slot_degrades_to_empty.2⟩

/-- C5: two top-level compiles of the same graph yield byte-identical
results regardless of the ambient generation state left over from any prior
run — the driver resets a fresh context, so no state leaks between
independent compilation runs. -/
theorem compile_independent_of_prior_state (g : Graph) (root : Nat)
    (s1 s2 : GenState) :
    compileFrom s1 g root = compileFrom s2 g root := rfl

/-- C6: a bound value input's child text is wrapped in parentheses if and
only if the child's precedence tier is numerically strictly greater
(looser) than the consumer's required tier; this is the sole
parenthesization rule. -/
theorem paren_iff_looser_tier (g : Graph) (fuel : Nat) (stack : List Nat)
    (b child : Node) (slot : String) (cid tier childTier : Nat) (t : String)
    (hslot : b.valueIn.lookup slot = some cid)
    (hstack : stack.contains cid = false)
    (hchild : lookupNode g cid = some child)
    (hgen : genValueF fuel g (cid :: stack) child = .ok (t, childTier)) :
    resolveValue g fuel stack b slot tier =
      if tier < childTier then .ok ("(" ++ t ++ ")", ORDER_ATOMIC)
      else .ok (t, childTier) := by
  have hs : cid ∉ stack := by simpa using hstack
  simp [resolveValue, resolveWith, hslot, hs, hchild, hgen]

/-- Witness for C6: a tier-0 literal under a tier-0 consumer is not
parenthesized. -/
theorem paren_iff_looser_tier_witness :
    resolveValue gC6 3 [] nC6 "TEMPO" ORDER_ATOMIC = .ok ("2", ORDER_ATOMIC) :=
  paren_iff_looser_tier gC6 3 [] nC6 nNumC6 "TEMPO" 21 ORDER_ATOMIC ORDER_ATOMIC "2"
    rfl rfl rfl rfl

/-- C7 counterexample: a graph whose value-input edges contain a
mutually-referential cycle (nodes 5 and 6) that the compiled root chain
never resolves compiles successfully and produces output text, so the claim
as universally stated over all graphs containing a cycle fails. -/
theorem unreachable_cycle_compiles_cex :
    lookupNode gC7b 5 = some { kind := .chord, valueIn := [("Note1", 6)] } ∧
    lookupNode gC7b 6 = some { kind := .chord, valueIn := [("Note1", 5)] } ∧
    compile gC7b 1 = .ok "stop_sound()\n" :=
  ⟨rfl, rfl, rfl⟩

/-- C7 (amended): whenever value-input resolution reaches a node already on
the current resolution stack it fails with CyclicValueInput, and a compile
whose root chain resolves into a value cycle fails with CyclicValueInput,
producing no output text. -/
theorem cycle_on_stack_detected :
    (∀ (g : Graph) (fuel : Nat) (stack : List Nat) (b : Node) (slot : String)
        (tier cid : Nat),
        b.valueIn.lookup slot = some cid → stack.contains cid = true →
        resolveValue g fuel stack b slot tier = .error .CyclicValueInput) ∧
    compile gC7 1 = .error .CyclicValueInput := by
  refine ⟨?_, rfl⟩
  intro g fuel stack b slot tier cid h hc
  have hs : cid ∈ stack := by simpa using hc
  simp [resolveValue, resolveWith, h, hs]

/-- Witness for the amended C7 at the self-referential chord node. -/
theorem cycle_on_stack_detected_witness :
    resolveValue gC7 3 [2] nChordC7 "Note1" ORDER_ATOMIC = .error .CyclicValueInput ∧
    compile gC7 1 = .error .CyclicValueInput :=
  ⟨cycle_on_stack_detected.1 gC7 3 [2] nChordC7 "Note1" ORDER_ATOMIC 2 rfl rfl,
   cycle_on_stack_detected.2⟩

/-- C10: a trigger_drum node emits trigger_sample(S) where S is the SAMPLE
dropdown value with its first occurrence of "soft" replaced by the STYLE
value; the two samples containing no "soft" substring are emitted unchanged
under either style. -/
theorem trigger_drum_soft_replacement :
    (∀ (g : Graph) (fuel : Nat) (st : GenState) (sample style : String),
        genStmt g fuel (mkTriggerDrum sample style) st =
          .ok ("trigger_sample(" ++ replaceFirst sample "soft" style ++ ")\n", st)) ∧
    replaceFirst ":drum_bass_soft" "soft" "hard" = ":drum_bass_hard" ∧
    replaceFirst ":drum_snare_soft" "soft" "hard" = ":drum_snare_hard" ∧
    replaceFirst ":drum_snare_soft" "soft" "soft" = ":drum_snare_soft" ∧
    replaceFirst ":drum_cymbal_open" "soft" "hard" = ":drum_cymbal_open" ∧
    replaceFirst ":drum_cymbal_open" "soft" "soft" = ":drum_cymbal_open" ∧
    replaceFirst ":drum_cymbal_closed" "soft" "hard" = ":drum_cymbal_closed" ∧
    replaceFirst ":drum_cymbal_closed" "soft" "soft" = ":drum_cymbal_closed" :=
  ⟨fun _ _ _ _ _ => rfl, rfl, rfl, rfl, rfl, rfl, rfl, rfl⟩

/-- C1 counterexample: compiling a root chain defmotif "intro" → stop_sound
gives the chain compiler the full definition text (not empty text) as the
defmotif node's body contribution, and the final output contains the
definition text both hoisted before the body and inline at the node's
original chain position. -/
theorem defmotif_inline_in_body_cex :
    Except.map Prod.fst (chainF (fuelOf gC1) gC1 (some 1) freshState) =
      .ok ("defmotif \"intro\" do\n\nend\n" ++ "stop_sound()\n") ∧
    ("defmotif \"intro\" do\n\nend\n" : String) ≠ "" ∧
    compile gC1 1 =
      .ok ("defmotif \"intro\" do\n\nend\n" ++ "\n" ++ "defmotif \"intro\" do\n\nend\n"
        ++ "stop_sound()\n") :=
  ⟨rfl, by decide, rfl⟩

/-- C1 (amended): a defmotif node's generator appends its full definition
text to the macro accumulator and also returns the same, necessarily
non-empty, text to the chain compiler, so the definition appears both in
the hoisted macro section and inline in the body at its chain position
(traversal still continuing to the node's next reference, as the chain
compiler's concatenation shows at the counterexample). -/
theorem defmotif_hoists_and_returns_code (g : Graph) (fuel : Nat) (b : Node)
    (st : GenState) (t : String) (st' : GenState)
    (hk : b.kind = .defmotif)
    (h : genStmt g fuel b st = .ok (t, st')) :
    st'.hoisted.getLast? = some t ∧ t ≠ "" := by
  unfold genStmt genStmtWith at h
  rw [hk] at h
  simp only [defmotifGen] at h
  split at h
  · exact Except.noConfusion h
  · split at h
    · exact Except.noConfusion h
    · injection h with h1
      injection h1 with hc hs
      subst hc
      subst hs
      refine ⟨List.getLast?_concat _, ?_⟩
      intro hemp
      have hlen := congrArg String.length hemp
      rw [String.length_append, String.length_append, String.length_append,
        String.length_append] at hlen
      have h10 : ("defmotif " : String).length = 9 := rfl
      have h0 : ("" : String).length = 0 := rfl
      omega

/-- Witness for the amended C1 at the concrete defmotif node of gC1. -/
theorem defmotif_hoists_and_returns_code_witness :
    (["defmotif \"intro\" do\n\nend\n"] : List String).getLast? =
        some "defmotif \"intro\" do\n\nend\n" ∧
    ("defmotif \"intro\" do\n\nend\n" : String) ≠ "" :=
  defmotif_hoists_and_returns_code gC1 5 nDefmotifC1 freshState
    "defmotif \"intro\" do\n\nend\n"
    { context := none, hoisted := ["defmotif \"intro\" do\n\nend\n"] } rfl rfl

/-- C4 counterexample: in gC4 a defmotif node (node 2) is the DO chain of a
play_in_key node (node 1).  The play_in_key generator enters with the scope
tag set to ":music" and, by the definition of playInKeyGen, the state after
compiling its DO chain is exactly the state below: the returned scope tag
is null, not the still-active outer scope's tag, because the inner defmotif
generator cleared it unconditionally on exit. -/
theorem nested_scope_tag_cleared_cex :
    Except.map (fun r => r.2.context)
        (statementToCode gC4 10 (some 2) { context := some ":music", hoisted := [] }) =
      .ok none ∧
    nPlayInKeyC4.stmtIn.lookup "DO" = some 2 ∧
    lookupNode gC4 1 = some nPlayInKeyC4 ∧
    (none : Option String) ≠ some ":music" :=
  ⟨rfl, rfl, rfl, by decide⟩

/-- The defmotif generator always returns with the scope tag cleared. -/
theorem defmotifGen_context (stc : StmtToCode) (g : Graph) (fuel : Nat) (b : Node)
    (st : GenState) (t : String) (st' : GenState)
    (h : defmotifGen stc g fuel b st = .ok (t, st')) : st'.context = none := by
  simp only [defmotifGen] at h
  split at h
  · exact Except.noConfusion h
  · split at h
    · exact Except.noConfusion h
    · injection h with h1
      injection h1 with hc hs
      rw [← hs]

/-- The play_chord_progression generator always returns with the scope tag
cleared. -/
theorem playChordProgressionGen_context (stc : StmtToCode) (g : Graph) (fuel : Nat)
    (b : Node) (st : GenState) (t : String) (st' : GenState)
    (h : playChordProgressionGen stc g fuel b st = .ok (t, st')) :
    st'.context = none := by
  simp only [playChordProgressionGen] at h
  split at h
  · exact Except.noConfusion h
  · split at h
    · exact Except.noConfusion h
    · injection h with h1
      injection h1 with hc hs
      rw [← hs]

/-- The play_in_key generator always returns with the scope tag cleared. -/
theorem playInKeyGen_context (stc : StmtToCode) (b : Node) (st : GenState)
    (t : String) (st' : GenState)
    (h : playInKeyGen stc b st = .ok (t, st')) : st'.context = none := by
  simp only [playInKeyGen] at h
  split at h
  · exact Except.noConfusion h
  · injection h with h1
    injection h1 with hc hs
    rw [← hs]

/-- The trigger_sample generator always returns with the scope tag cleared. -/
theorem triggerSampleGen_context (b : Node) (st : GenState) (t : String)
    (st' : GenState)
    (h : triggerSampleGen b st = .ok (t, st')) : st'.context = none := by
  simp only [triggerSampleGen] at h
  injection h with h1
  injection h1 with hc hs
  rw [← hs]

/-- C4 (amended): every scope-defining generator (defmotif,
play_chord_progression, play_in_key, trigger_sample) sets the scope tag on
entry and unconditionally clears it to null before returning, without
restoring any enclosing scope's tag; hence after an inner scope-defining
generator returns inside an outer one, the tag is null even though the
outer scope-defining generator is still active. -/
theorem scope_generator_clears_context (g : Graph) (fuel : Nat) (b : Node)
    (st : GenState) (t : String) (st' : GenState)
    (hk : b.kind = .defmotif ∨ b.kind = .play_chord_progression ∨
      b.kind = .play_in_key ∨ b.kind = .trigger_sample)
    (h : genStmt g fuel b st = .ok (t, st')) :
    st'.context = none := by
  unfold genStmt genStmtWith at h
  rcases hk with hk | hk | hk | hk <;> rw [hk] at h
  · exact defmotifGen_context _ _ _ _ _ _ _ h
  · exact playChordProgressionGen_context _ _ _ _ _ _ _ h
  · exact playInKeyGen_context _ _ _ _ _ h
  · exact triggerSampleGen_context _ _ _ _ h

/-- Witness for the amended C4 at the concrete defmotif node of gC1. -/
theorem scope_generator_clears_context_witness :
    ({ context := none, hoisted := ["defmotif \"intro\" do\n\nend\n"] } :
      GenState).context = none :=
  scope_generator_clears_context gC1 5 nDefmotifC1 freshState
    "defmotif \"intro\" do\n\nend\n"
    { context := none, hoisted := ["defmotif \"intro\" do\n\nend\n"] }
    (Or.inl rfl) rfl

/-- Two string literals merge under an appended tail. -/
theorem append_bracket_comma (x : String) :
    ("[," : String) ++ x = "[" ++ ("," ++ x) := by
  rw [← String.append_assoc]
  rfl

/-- C9: a chord (or premade_chord) node builds its list text by visiting
Note1..Note4 in index order, emitting a comma before the i-th note's
resolved text exactly when that text is non-empty and i > 1, regardless of
whether any earlier note was emitted; hence with Note1 unbound (empty text)
and a later note bound, the emitted list begins with a leading comma. -/
theorem chord_comma_rule (g : Graph) (fuel : Nat) (stack : List Nat) (b : Node)
    (t1 t2 t3 t4 : String) (o1 o2 o3 o4 : Nat)
    (hk : b.kind = .chord ∨ b.kind = .premade_chord)
    (h1 : resolveValue g fuel stack b "Note1" ORDER_ATOMIC = .ok (t1, o1))
    (h2 : resolveValue g fuel stack b "Note2" ORDER_ATOMIC = .ok (t2, o2))
    (h3 : resolveValue g fuel stack b "Note3" ORDER_ATOMIC = .ok (t3, o3))
    (h4 : resolveValue g fuel stack b "Note4" ORDER_ATOMIC = .ok (t4, o4)) :
    genValueF (fuel + 1) g stack b =
      .ok ("[" ++ noteSeg 1 t1 ++ noteSeg 2 t2 ++ noteSeg 3 t3 ++ noteSeg 4 t4 ++ "]",
        ORDER_ATOMIC) ∧
    (t1 = "" → t2 ≠ "" → ∃ r,
      genValueF (fuel + 1) g stack b = .ok ("[," ++ r, ORDER_ATOMIC)) := by
  have e1 : resolveWith (fun s c => genValueF fuel g s c) g stack b
      ("Note" ++ Nat.repr 1) ORDER_ATOMIC = .ok (t1, o1) := h1
  have e2 : resolveWith (fun s c => genValueF fuel g s c) g stack b
      ("Note" ++ Nat.repr 2) ORDER_ATOMIC = .ok (t2, o2) := h2
  have e3 : resolveWith (fun s c => genValueF fuel g s c) g stack b
      ("Note" ++ Nat.repr 3) ORDER_ATOMIC = .ok (t3, o3) := h3
  have e4 : resolveWith (fun s c => genValueF fuel g s c) g stack b
      ("Note" ++ Nat.repr 4) ORDER_ATOMIC = .ok (t4, o4) := h4
  have main : genValueF (fuel + 1) g stack b =
      .ok ("[" ++ noteSeg 1 t1 ++ noteSeg 2 t2 ++ noteSeg 3 t3 ++ noteSeg 4 t4 ++ "]",
        ORDER_ATOMIC) := by
    rcases hk with hk | hk <;>
    · simp only [genValueF, hk, List.foldl]
      rw [e1, e2, e3, e4]
      by_cases c1 : t1 = "" <;> by_cases c2 : t2 = "" <;>
        by_cases c3 : t3 = "" <;> by_cases c4 : t4 = "" <;>
        simp [noteSeg, c1, c2, c3, c4, String.append_assoc,
          String.empty_append, String.append_empty, append_bracket_comma]
  refine ⟨main, ?_⟩
  intro ht1 ht2
  refine ⟨t2 ++ (noteSeg 3 t3 ++ (noteSeg 4 t4 ++ "]")), ?_⟩
  rw [main, ht1]
  simp [noteSeg, ht2, String.append_assoc, String.empty_append, String.append_empty,
    append_bracket_comma]

/-- Witness for C9 at a chord whose Note1 is unbound and Note2 is the text
literal "E4": the generated list text carries the leading comma. -/
theorem chord_comma_rule_witness :
    genValueF 4 gC9 [30] nChordC9 = .ok ("[,\"E4\"]", ORDER_ATOMIC) :=
  (chord_comma_rule gC9 3 [30] nChordC9 "" "\"E4\"" "" "" ORDER_ATOMIC ORDER_ATOMIC
    ORDER_ATOMIC ORDER_ATOMIC (Or.inl rfl) rfl rfl rfl rfl).1

end BlocklyElixir
